import Mathlib

/-!
Verification of the plate-appearance translator of the baseball repository.

The Python sources (src/baseball/baseball.py, the authoritative module, and
src/baseball.py, an older sibling that also holds fix_initials) are embedded
shallowly below: strings become Lean String values manipulated through
List Char, regular-expression operations of the source become specialised
scanners with the same matching semantics, Python dictionaries become
association lists in insertion-newest-first order, and every Python
code path that can raise becomes an Except String computation.
-/

set_option maxRecDepth 100000

deriving instance DecidableEq for Except

namespace Baseball

/-! ## Python string primitives -/

/-- Python str membership test of a whitespace character, matching the
re module class for backslash-s over ASCII input. -/
def pyIsSpace (c : Char) : Bool :=
  c = ' ' || c = '\t' || c = '\n' || c = '\r' || c = '\x0b' || c = '\x0c'

/-- ASCII uppercase letter, the character class A-Z of the source regexes. -/
def isUpperChar (c : Char) : Bool :=
  'A' ≤ c && c ≤ 'Z'

/-- ASCII lowercase letter. -/
def isLowerChar (c : Char) : Bool :=
  'a' ≤ c && c ≤ 'z'

/-- Python regex word character (backslash-w) over the ASCII range in which
the ingested descriptions live: letters, digits, underscore. -/
def isWordChar (c : Char) : Bool :=
  isUpperChar c || isLowerChar c || c.isDigit || c = '_'

/-- The runner-name token class of the out-runner regex: word characters,
apostrophe and hyphen. -/
def isNameChar (c : Char) : Bool :=
  isWordChar c || c = Char.ofNat 39 || c = '-'

/-- The class of the middle name tokens of the out-runner regex, written
A-Z comma a-z in the source (the comma is part of the class). -/
def isMidChar (c : Char) : Bool :=
  isUpperChar c || c = ',' || isLowerChar c

/-- True when the pattern stands at the head of the text. -/
def leadsWith : List Char → List Char → Bool
  | [], _ => true
  | _ :: _, [] => false
  | a :: as, b :: bs => a = b && leadsWith as bs

/-- Python substring membership: the first list occurs somewhere in the
second (the empty pattern is contained in everything). -/
def hasSub (pat : List Char) : List Char → Bool
  | [] => pat.isEmpty
  | c :: t => leadsWith pat (c :: t) || hasSub pat t

/-- Python substring membership on String values. -/
def hasSubS (pat s : String) : Bool :=
  hasSub pat.data s.data

/-- Fuel-driven core of replace-all; the fuel is the input length, which is
enough because every step consumes at least one character. -/
def replaceGo (pat rep : List Char) : Nat → List Char → List Char
  | _, [] => []
  | 0, l => l
  | Nat.succ f, c :: t =>
    if !pat.isEmpty && leadsWith pat (c :: t) then
      rep ++ replaceGo pat rep f (t.drop (pat.length - 1))
    else
      c :: replaceGo pat rep f t

/-- Python str.replace and re.sub with a metacharacter-free pattern:
replace every non-overlapping occurrence, scanning left to right. -/
def replaceAllL (pat rep l : List Char) : List Char :=
  replaceGo pat rep l.length l

/-- Python lstrip over an explicit character set. -/
def pyStripL (set : List Char) (l : List Char) : List Char :=
  ((l.dropWhile (set.contains ·)).reverse.dropWhile (set.contains ·)).reverse

/-- Python str.strip(chars) on String values. -/
def pyStrip (set : List Char) (s : String) : String :=
  String.mk (pyStripL set s.data)

/-- Python str.strip() with no argument: trim whitespace from both ends. -/
def pyTrimL (l : List Char) : List Char :=
  ((l.dropWhile pyIsSpace).reverse.dropWhile pyIsSpace).reverse

/-- Python str.strip() on String values. -/
def pyTrim (s : String) : String :=
  String.mk (pyTrimL s.data)

/-- Fuel-driven splitter core: accumulates the current field in reverse. -/
def splitGo (sep : List Char) : Nat → List Char → List Char → List (List Char)
  | _, acc, [] => [acc.reverse]
  | 0, acc, l => [acc.reverse ++ l]
  | Nat.succ f, acc, c :: t =>
    if !sep.isEmpty && leadsWith sep (c :: t) then
      acc.reverse :: splitGo sep f [] (t.drop (sep.length - 1))
    else
      splitGo sep f (c :: acc) t

/-- Python str.split(sep) with a non-empty separator. -/
def pySplit (sep s : String) : List String :=
  (splitGo sep.data s.data.length [] s.data).map String.mk

/-- Python str.split() with no argument: split on whitespace runs and drop
the empty fields. -/
def pySplitWs (s : String) : List String :=
  ((s.data.splitOnP pyIsSpace).map String.mk).filter (fun t => t ≠ "")

/-- Python sequence indexing, raising IndexError past the end. -/
def pyIndex (l : List String) (i : Nat) : Except String String :=
  match l.get? i with
  | some v => Except.ok v
  | none => Except.error "IndexError: list index out of range"

/-- The text before the first occurrence of the pattern, or the whole text
when the pattern is absent: Python split(sep) element zero. -/
def breakBeforeL (pat : List Char) : List Char → List Char
  | [] => []
  | c :: t =>
    if leadsWith pat (c :: t) then []
    else c :: breakBeforeL pat t

/-- Python split(sep) element zero on String values. -/
def breakBefore (pat s : String) : String :=
  String.mk (breakBeforeL pat.data s.data)

/-- The text after the first occurrence of the pattern (everything that
follows the separator), used for Python split(sep, 1) element one. -/
def breakAfterL (pat : List Char) : List Char → List Char
  | [] => []
  | c :: t =>
    if leadsWith pat (c :: t) then (c :: t).drop pat.length
    else breakAfterL pat t

/-- Python split(sep, 1): the pair before/after the first occurrence;
callers only use it under a containment guard. -/
def breakOnFirst (pat s : String) : String × String :=
  (breakBefore pat s, String.mk (breakAfterL pat.data s.data))

/-- First-match association-list lookup; insertion conses at the head, so
the head-first scan realises Python dict overwrite semantics. -/
def lookupD {α β : Type} [DecidableEq α] : List (α × β) → α → Option β
  | [], _ => none
  | (k, v) :: t, a => if k = a then some v else lookupD t a

/-- Python re.sub with a dollar-anchored literal pattern: remove the literal
at the end of the string, also when a single trailing newline follows it. -/
def pyDollarSub (pat : String) (s : String) : String :=
  if s.data.reverse.take pat.data.length = pat.data.reverse then
    String.mk (s.data.take (s.data.length - pat.data.length))
  else if s.data.reverse.take (pat.data.length + 1) = ('\n' :: pat.data.reverse) then
    String.mk (s.data.take (s.data.length - pat.data.length - 1) ++ ['\n'])
  else s

/-! ## Searching for the fixed-point rewrite patterns

strip_this_suffix and fix_initials in the source loop on re.search; each
pattern is a literal or class prefix followed by greedy whitespace whose
extent is forced (the character after the run belongs to a class disjoint
from whitespace), so a deterministic scanner reproduces the regex. -/

/-- Maximal run split at a character predicate. -/
def wordRun (p : Char → Bool) (l : List Char) : List Char × List Char :=
  (l.takeWhile p, l.dropWhile p)

/-- The pattern literal-then-whitespace-then-uppercase at the head of the
text, as in space-Jr-dot backslash-s-plus A-Z; yields the match length. -/
def matchSufAt (pat : List Char) (l : List Char) : Option Nat :=
  if leadsWith pat l then
    let rest := l.drop pat.length
    let (w, r2) := wordRun pyIsSpace rest
    if w.isEmpty then none
    else
      match r2 with
      | c :: _ => if isUpperChar c then some (pat.length + w.length + 1) else none
      | [] => none
  else none

/-- re.search driver: the start index and length of the leftmost match. -/
def searchGo (f : List Char → Option Nat) : List Char → Option (Nat × Nat)
  | [] =>
    match f [] with
    | some n => some (0, n)
    | none => none
  | c :: t =>
    match f (c :: t) with
    | some n => some (0, n)
    | none =>
      match searchGo f t with
      | some (i, n) => some (i + 1, n)
      | none => none

/-- The rewrite loop of strip_this_suffix: while the pattern occurs, replace
the suffix literal inside the matched span by a period. -/
def stripLoop (pat : List Char) : Nat → List Char → List Char
  | 0, l => l
  | Nat.succ f, l =>
    match searchGo (matchSufAt pat) l with
    | none => l
    | some (i, n) =>
      let middle := (l.drop i).take n
      stripLoop pat f (l.take i ++ replaceAllL pat ['.'] middle ++ l.drop (i + n))

/-- strip_this_suffix of the source: run the rewrite loop to its fixed
point, then delete every remaining occurrence of the literal and trim. -/
def strip_this_suffix (pat : List Char) (l : List Char) : List Char :=
  pyTrimL (replaceAllL pat [] (stripLoop pat (l.length + 1) l))

/-- strip_suffixes of the source: Jr and Sr handling, then removal of the
generational numerals, then the St-dot conversion. -/
def strip_suffixes (s : String) : String :=
  let l := s.data
  let l := strip_this_suffix (" Jr.").data l
  let l := strip_this_suffix (" Sr.").data l
  let l := replaceAllL (" II").data [] l
  let l := replaceAllL (" III").data [] l
  let l := replaceAllL (" IV").data [] l
  let l := replaceAllL (" St. ").data (" St ").data l
  String.mk l

/-! ## fix_initials (src/baseball.py)

Two fixed-point loops: first collapse two-initial runs A-Z dot ws A-Z dot ws
to the bare letters plus one space, then delete the period of a remaining
lone A-Z dot ws A-Z pattern. -/

/-- The two-initial pattern at the head of the text; the whitespace runs are
forced maximal because an uppercase letter must follow each. -/
def matchInit2At (l : List Char) : Option Nat :=
  match l with
  | c0 :: c1 :: rest =>
    if isUpperChar c0 && c1 = '.' then
      let (w, r2) := wordRun pyIsSpace rest
      if w.isEmpty then none
      else
        match r2 with
        | c2 :: c3 :: r3 =>
          if isUpperChar c2 && c3 = '.' then
            let (w2, _) := wordRun pyIsSpace r3
            if w2.isEmpty then none else some (2 + w.length + 2 + w2.length)
          else none
        | _ => none
    else none
  | _ => none

/-- The lone-initial pattern A-Z dot whitespace A-Z at the head of the text. -/
def matchInit1At (l : List Char) : Option Nat :=
  match l with
  | c0 :: c1 :: rest =>
    if isUpperChar c0 && c1 = '.' then
      let (w, r2) := wordRun pyIsSpace rest
      if w.isEmpty then none
      else
        match r2 with
        | c2 :: _ => if isUpperChar c2 then some (2 + w.length + 1) else none
        | [] => none
    else none
  | _ => none

/-- re.sub of dot-then-whitespace runs by nothing, applied to the matched
middle of the first fix_initials loop. -/
def subDotWs : Nat → List Char → List Char
  | _, [] => []
  | 0, l => l
  | Nat.succ f, c :: t =>
    if c = '.' && !(t.takeWhile pyIsSpace).isEmpty then
      subDotWs f (t.dropWhile pyIsSpace)
    else
      c :: subDotWs f t

/-- First fix_initials loop: rewrite each two-initial match to the two bare
letters followed by a single space. -/
def fixLoop2 : Nat → List Char → List Char
  | 0, l => l
  | Nat.succ f, l =>
    match searchGo matchInit2At l with
    | none => l
    | some (i, n) =>
      let mid := (l.drop i).take n
      fixLoop2 f (l.take i ++ subDotWs mid.length mid ++ [' '] ++ l.drop (i + n))

/-- Second fix_initials loop: delete the periods of a lone-initial match and
trim the whole string. -/
def fixLoop1 : Nat → List Char → List Char
  | 0, l => l
  | Nat.succ f, l =>
    match searchGo matchInit1At l with
    | none => l
    | some (i, n) =>
      let mid := (l.drop i).take n
      fixLoop1 f (pyTrimL (l.take i ++ replaceAllL ['.'] [] mid ++ l.drop (i + n)))

/-- fix_initials of src/baseball.py. -/
def fix_initials (s : String) : String :=
  let l := s.data
  let l2 := fixLoop2 (l.length + 1) l
  String.mk (fixLoop1 (l2.length + 1) l2)

/-- The Name Normalizer of the specification: initial collapsing composed
with suffix stripping. -/
def normalize_name (s : String) : String :=
  strip_suffixes (fix_initials s)

/-! ## Constant tables (src/baseball/baseball.py) -/

/-- POSITION_CODE_DICT. -/
def POSITION_CODE_DICT : List (String × Nat) :=
  [("pitcher", 1), ("catcher", 2), ("first", 3), ("second", 4), ("third", 5),
   ("shortstop", 6), ("left", 7), ("center", 8), ("right", 9), ("designated", 10)]

/-- ON_BASE_SUMMARY_DICT. -/
def ON_BASE_SUMMARY_DICT : List (String × String) :=
  [("Single", "1B"), ("Double", "2B"), ("Triple", "3B"), ("Hit By Pitch", "HBP"),
   ("Home Run", "HR"), ("Walk", "BB"), ("Intent Walk", "IBB")]

/-- PLAY_CODE_ORDERED_DICT, in source order; the classifier keeps the last
matching entry. -/
def PLAY_CODE_ORDERED_DICT : List (String × String) :=
  [("picks off", "PO"),
   ("caught stealing", "CS"),
   ("wild pitch", "WP"),
   ("passed ball", "PB"),
   ("balk", "BLK"),
   ("steals", "S"),
   ("fan interference", "FI"),
   ("catcher interference", "CI"),
   ("error", "E"),
   ("ground", "G"),
   ("grand slam", "HR"),
   ("homers", "HR"),
   ("pop", "P"),
   ("line", "L"),
   ("fly", "F"),
   ("flies", "F"),
   ("sacrifice fly", "SF"),
   ("hit by pitch", "HBP"),
   ("bunt", "B"),
   ("sacrifice bunt", "SB"),
   ("walks", "BB"),
   ("intentionally walks", "IBB"),
   ("called out on strikes", "ꓘ"),
   ("strikes out", "K"),
   ("choice", "FC")]

/-- NO_HIT_CODE_LIST. -/
def NO_HIT_CODE_LIST : List String :=
  ["K", "ꓘ", "BB", "IBB"]

/-- INCREMENT_BASE_DICT. -/
def INCREMENT_BASE_DICT : List (String × String) :=
  [("1st", "2nd"), ("2nd", "3rd"), ("3rd", "home")]

/-! ## Player and Team (src/baseball/baseball.py lines 186-291) -/

/-- Player: identity and career rates; the Python floats are modelled as
rationals, never computed with here. -/
structure Player where
  last_name : String
  first_name : String
  mlb_id : Int
  obp : Option Rat
  slg : Option Rat
  number : Option Int
deriving DecidableEq

/-- Player.full_name. -/
def Player.full_name (p : Player) : String :=
  p.first_name ++ " " ++ p.last_name

/-- Team: the three roster indices, as association lists whose head is the
newest insertion (Python dict overwrite order). -/
structure Team where
  name : String
  abbreviation : String
  player_id_dict : List (Int × Player)
  player_name_dict : List (String × Player)
  player_last_name_dict : List (String × Player)
deriving DecidableEq

/-- A dynamic player key: Python passes an int, a str, or (erroneously)
anything else; the otherKey constructor carries the str() rendering that
the error message would interpolate. -/
inductive PlayerKey where
  | intKey (i : Int)
  | strKey (s : String)
  | otherKey (reprStr : String)
deriving DecidableEq

/-- The str() rendering of a key, as the format calls of the source use. -/
def keyToStr : PlayerKey → String
  | .intKey i => toString i
  | .strKey s => s
  | .otherKey r => r

/-- Lines 245-255 of find_player: the fallback normalisation of a string
key and the initial-plus-last-token fuzzy key built from it; raises
IndexError when the normalised key is empty or all whitespace. -/
def find_query_key (s : String) : Except String String :=
  let n1 := pyDollarSub " Jr" (pyStrip [' ', '.'] s)
  let n2 := pyDollarSub " Sr" (pyStrip [' ', '.'] n1)
  let n3 := pyDollarSub " II" (pyTrim n2)
  let n4 := pyDollarSub " III" (pyTrim n3)
  let n5 := pyDollarSub " IV" (pyTrim n4)
  let n6 := strip_suffixes (pyTrim n5)
  match n6.data with
  | [] => Except.error "IndexError: string index out of range"
  | c :: _ =>
    match (pySplitWs n6).getLast? with
    | some lastTok => Except.ok (String.mk [c] ++ lastTok)
    | none => Except.error "IndexError: list index out of range"

/-- Team.find_player: id lookup for int keys, exact-name-then-fuzzy lookup
for str keys, ValueError for any other key type. -/
def Team.find_player (t : Team) : PlayerKey → Except String (Option Player)
  | .intKey i => Except.ok (lookupD t.player_id_dict i)
  | .strKey s =>
    match lookupD t.player_name_dict s with
    | some p => Except.ok (some p)
    | none =>
      match find_query_key s with
      | Except.error e => Except.error e
      | Except.ok k => Except.ok (lookupD t.player_last_name_dict k)
  | .otherKey r =>
    Except.error ("Player key: " ++ r ++ " must be either int or str")

/-- Team.__getitem__: find_player, then ValueError when nothing was found. -/
def Team.getItem (t : Team) (k : PlayerKey) : Except String Player :=
  match t.find_player k with
  | Except.error e => Except.error e
  | Except.ok (some p) => Except.ok p
  | Except.ok none => Except.error (keyToStr k ++ " not found in team")

/-- The cleaned short last name computed by Team.append before indexing:
strip periods, spaces and commas, strip the dollar-anchored generational
suffixes, convert St-dot, and keep the second token when a space remains. -/
def append_short_last (last : String) : Except String String :=
  let l1 := pyDollarSub " Jr" (String.mk ((pyStrip ['.', ' '] last).data.filter (fun c => c ≠ ',')))
  let l2 := pyDollarSub " Sr" (String.mk ((pyStrip ['.', ' '] l1).data.filter (fun c => c ≠ ',')))
  let l3 := pyDollarSub " II" (pyTrim l2)
  let l4 := pyDollarSub " III" (pyTrim l3)
  let l5 := pyDollarSub " IV" (pyTrim l4)
  let l6 := String.mk (replaceAllL (" St. ").data (" St ").data (pyTrim l5).data)
  if hasSubS " " l6 then pyIndex (pySplitWs l6) 1 else Except.ok l6

/-- The first character of a string, Python s index zero. -/
def str_first_char (s : String) : Except String Char :=
  match s.data with
  | [] => Except.error "IndexError: string index out of range"
  | c :: _ => Except.ok c

/-- Team.append: insert the player into the three indices. -/
def Team.append (t : Team) (p : Player) : Except String Team :=
  match append_short_last p.last_name with
  | Except.error e => Except.error e
  | Except.ok short =>
    match str_first_char p.first_name with
    | Except.error e => Except.error e
    | Except.ok ini =>
      Except.ok
        { t with
          player_id_dict := (p.mlb_id, p) :: t.player_id_dict
          player_name_dict := (p.full_name, p) :: t.player_name_dict
          player_last_name_dict := (String.mk [ini] ++ short, p) :: t.player_last_name_dict }

/-! ## PlateAppearance: defensive chain resolution (lines 499-568) -/

/-- process_defense_predicate_list: map position names to code strings,
pass base names through silently, raise on anything else. -/
def process_defense_predicate_list : List String → Except String (List String)
  | [] => Except.ok []
  | pos :: rest =>
    match lookupD POSITION_CODE_DICT pos with
    | some code =>
      match process_defense_predicate_list rest with
      | Except.error e => Except.error e
      | Except.ok r => Except.ok (toString code :: r)
    | none =>
      if pyStrip [' ', '.'] pos ∈ ["1st", "2nd", "3rd"] then
        process_defense_predicate_list rest
      else
        Except.error (pos ++ " not in position code dict")

/-- get_defense_player_order: strip deep and shallow qualifiers, keep the
first hyphen-or-space-delimited word of each predicate. -/
def get_defense_player_order : List String → Except String (List String)
  | [] => Except.ok []
  | pos :: rest =>
    let p1 := if hasSubS "deep" pos then pyTrim (String.mk (replaceAllL ("deep").data [] pos.data)) else pos
    let p2 := if hasSubS "shallow" p1 then pyTrim (String.mk (replaceAllL ("shallow").data [] p1.data)) else p1
    match pySplitWs p2 with
    | [] => Except.error "IndexError: list index out of range"
    | w :: _ =>
      match get_defense_player_order rest with
      | Except.error e => Except.error e
      | Except.ok r => Except.ok ((pySplit "-" w).headD "" :: r)

/-- get_defense_predicate_list: the ordered pattern rules of the source,
with the error-by override applied to the possibly rebound clause. -/
def get_defense_predicate_list (d : String) : Except String (List String) :=
  let step1 : Except String (List String × String) :=
    if hasSubS "caught stealing" d || hasSubS "on fan interference" d ||
       hasSubS "picks off" d || hasSubS "wild pitch by" d then
      Except.ok ([], d)
    else if hasSubS "catcher interference by" d then
      Except.ok (["catcher"], d)
    else if hasSubS "fielded by" d then
      match pyIndex (pySplit " fielded by " d) 1 with
      | Except.error e => Except.error e
      | Except.ok s => Except.ok ([s], s)
    else if hasSubS ", " d && hasSubS " to " d then
      match pyIndex (pySplit ", " d) 1 with
      | Except.error e => Except.error e
      | Except.ok s => Except.ok (pySplit " to " s, s)
    else if hasSubS " to " d then
      Except.ok ((pySplit " to " d).drop 1, d)
    else
      Except.ok ([], d)
  match step1 with
  | Except.error e => Except.error e
  | Except.ok (preds, d2) =>
    if hasSubS "error by" d2 then
      match pyIndex (pySplit " error by " d2) 1 with
      | Except.error e => Except.error e
      | Except.ok s => Except.ok [s]
    else
      Except.ok preds

/-- get_defense_code_order: predicates, then player order, then codes. -/
def get_defense_code_order (d : String) : Except String (List String) :=
  match get_defense_predicate_list d with
  | Except.error e => Except.error e
  | Except.ok preds =>
    match get_defense_player_order preds with
    | Except.error e => Except.error e
    | Except.ok order => process_defense_predicate_list order

/-- The out-phrasing alternatives of the suffix regexes, flattened in the
priority order that the regex alternation with the optional was tries. -/
def OUT_PHRASES : List (List Char) :=
  [("out at").data,
   ("was picked off and caught stealing").data,
   ("picked off and caught stealing").data,
   ("was caught stealing").data,
   ("caught stealing").data,
   ("was picked off").data,
   ("picked off").data,
   ("was doubled off").data,
   ("doubled off").data]

/-- The tail of the defense-suffix pattern right after the phrase: the
classes 1-3-comma-h, snro, tdm, an optional e (absorbed by the following
word-or-space run since e is a word character), the run, then comma space.
Note that the source pattern has no whitespace between the phrase and the
first class, so prose with a space after the phrase never matches. -/
def baseClassTail (l : List Char) : Bool :=
  match l with
  | c1 :: c2 :: c3 :: rest =>
    if (c1 = '1' || c1 = '2' || c1 = '3' || c1 = ',' || c1 = 'h') &&
       (c2 = 's' || c2 = 'n' || c2 = 'r' || c2 = 'o') &&
       (c3 = 't' || c3 = 'd' || c3 = 'm') then
      leadsWith (", ").data (rest.dropWhile (fun c => isWordChar c || pyIsSpace c))
    else false
  | _ => false

/-- Whether the defense-suffix pattern matches at the head of the text. -/
def defSuffixMatchAt (l : List Char) : Bool :=
  OUT_PHRASES.any (fun p => leadsWith p l && baseClassTail (l.drop p.length))

/-- re.search start position of the defense-suffix pattern. -/
def defSuffixSearch : List Char → Option Nat
  | [] => none
  | c :: t =>
    if defSuffixMatchAt (c :: t) then some 0
    else (defSuffixSearch t).map (· + 1)

/-- get_defense_suffix: from the first suffix-pattern match to the end of
the clause, re-resolve the chain and parenthesise it. -/
def get_defense_suffix (suffix_str : String) : Except String String :=
  match defSuffixSearch suffix_str.data with
  | none => Except.ok ""
  | some i =>
    match get_defense_code_order (String.mk (suffix_str.data.drop i)) with
    | Except.error e => Except.error e
    | Except.ok order => Except.ok (" (" ++ String.intercalate "-" order ++ ")")

/-! ## The out-runner regex (get_out_runners_list, lines 589-611)

The pattern is one-to-four name tokens, the out phrasing, then spaces and a
word-character base token. The token runs are forced maximal because each
is followed by a class disjoint from its own, so the only regex choice
points are the two optional middle tokens (present tried before absent)
and the phrase alternation; the matcher walks those in regex priority
order and keeps the first full success. -/

/-- One name token: a first character from the given class, then a
non-empty run of word-apostrophe-hyphen characters. -/
def nameTok (firstP : Char → Bool) (l : List Char) : Option (List Char × List Char) :=
  match l with
  | c :: t =>
    if firstP c then
      let (r, rest) := wordRun isNameChar t
      if r.isEmpty then none else some (c :: r, rest)
    else none
  | [] => none

/-- A non-empty whitespace run. -/
def wsTok (l : List Char) : Option (List Char × List Char) :=
  let (w, rest) := wordRun pyIsSpace l
  if w.isEmpty then none else some (w, rest)

/-- The spaces-then-base tail of the out-runner pattern: a non-empty run of
plain spaces, then the captured word-character run. -/
def baseTok (l : List Char) : Option (List Char × Nat) :=
  let (sp, r1) := wordRun (fun c => c = ' ') l
  if sp.isEmpty then none
  else
    let (w, _) := wordRun isWordChar r1
    if w.isEmpty then none else some (w, sp.length + w.length)

/-- Try the phrase alternatives in priority order, each followed by the
base tail; backtracks to the next alternative when the tail fails. -/
def phraseTailGo : List (List Char) → List Char → Option (List Char × Nat)
  | [], _ => none
  | p :: ps, l =>
    if leadsWith p l then
      match baseTok (l.drop p.length) with
      | some (b, n) => some (b, p.length + n)
      | none => phraseTailGo ps l
    else phraseTailGo ps l

/-- After the name group: whitespace, then the phrase and base tail. -/
def nameTail (l : List Char) : Option (List Char × Nat) :=
  match wsTok l with
  | none => none
  | some (w, rest) =>
    match phraseTailGo OUT_PHRASES rest with
    | some (b, n) => some (b, w.length + n)
    | none => none

/-- Close the name with the final uppercase token and match the tail. -/
def lastAndTail (pre : List Char) (l : List Char) : Option (List Char × List Char × Nat) :=
  match nameTok isUpperChar l with
  | none => none
  | some (lt, r) =>
    match nameTail r with
    | some (b, n) => some (pre ++ lt, b, (pre ++ lt).length + n)
    | none => none

/-- The priority list of one optional middle token with trailing
whitespace: present first, then absent. -/
def midChoice (l : List Char) : List (List Char × List Char) :=
  (match nameTok isMidChar l with
   | some (tk, r1) =>
     match wsTok r1 with
     | some (w, r2) => [(tk ++ w, r2)]
     | none => []
   | none => []) ++ [([], l)]

/-- First success over a priority list of alternatives. -/
def firstSome {α : Type} : List (Option α) → Option α
  | [] => none
  | some a :: _ => some a
  | none :: t => firstSome t

/-- The whole out-runner pattern at the head of the text: group one (the
name), group two (the base) and the total match length. -/
def matchOutAt (l : List Char) : Option (List Char × List Char × Nat) :=
  match nameTok isUpperChar l with
  | none => none
  | some (t1, r1) =>
    match wsTok r1 with
    | none => none
    | some (w1, r2) =>
      firstSome
        ((midChoice r2).flatMap (fun m1 =>
          (midChoice m1.2).map (fun m2 =>
            lastAndTail (t1 ++ w1 ++ m1.1 ++ m2.1) m2.2)))

/-- re.findall driver: scan left to right, resume after each match. -/
def outFindGo : Nat → List Char → List (String × String)
  | 0, _ => []
  | _, [] => []
  | Nat.succ f, c :: t =>
    match matchOutAt (c :: t) with
    | some (name, base, len) =>
      (String.mk name, String.mk base) :: outFindGo f ((c :: t).drop len)
    | none => outFindGo f t

/-- The list of (name, base) capture pairs of the out-runner regex. -/
def out_runner_matches (d : String) : List (String × String) :=
  outFindGo d.data.length d.data

/-- Increment-table lookup; a miss is the Python KeyError. -/
def incLookup (base : String) : Except String String :=
  match lookupD INCREMENT_BASE_DICT base with
  | some b => Except.ok b
  | none => Except.error ("KeyError: " ++ base)

/-- The loop body of get_out_runners_list: advance the base one step for a
doubled-off runner, then resolve the name through the raising item lookup. -/
def out_runners_go (t : Team) (d : String) :
    List (String × String) → Except String (List (Player × String))
  | [] => Except.ok []
  | (name, base) :: rest =>
    let base2 :=
      if hasSubS (name ++ " doubled off") d || hasSubS (name ++ " was doubled off") d then
        incLookup base
      else Except.ok base
    match base2 with
    | Except.error e => Except.error e
    | Except.ok b =>
      match t.getItem (.strKey name) with
      | Except.error e => Except.error e
      | Except.ok p =>
        match out_runners_go t d rest with
        | Except.error e => Except.error e
        | Except.ok r => Except.ok ((p, b) :: r)

/-- get_out_runners_list: suffix-strip the description, find every
runner-out phrasing, and resolve each against the batting team. -/
def get_out_runners_list (t : Team) (desc : String) : Except String (List (Player × String)) :=
  out_runners_go t (strip_suffixes desc) (out_runner_matches (strip_suffixes desc))

/-! ## Play classifier and scorecard assembly (lines 613-705) -/

/-- The primary clause that get_play_str scans: the suffix-stripped
description cut at the first sentence break. -/
def primary_clause (desc : String) : String :=
  let d := strip_suffixes desc
  if hasSubS ". " d then breakBefore ". " d else d

/-- The disqualifying patterns under which a keywordless clause yields the
empty play code instead of an error. -/
def disqualified (d : String) : Bool :=
  hasSubS "out at" d || hasSubS "singles" d || hasSubS "doubles" d ||
  hasSubS "triples" d || hasSubS "hits a home run" d || hasSubS "ejected" d

/-- The keyword-table scan of get_play_str: the code of the last matching
entry, in table order. -/
def classify_clause (clause : String) : Option String :=
  PLAY_CODE_ORDERED_DICT.foldl
    (fun acc kc => if hasSubS kc.1 clause then some kc.2 else acc) none

/-- Python truthiness of the running code variable: None and the empty
string are falsy. -/
def pyTruthy : Option String → Bool
  | none => false
  | some s => s ≠ ""

/-- The running code variable of get_play_str after the table scan and the
fan-interference override of the summary label. -/
def play_code_opt (summary desc : String) : Option String :=
  if summary = "Fan interference" then some "FI"
  else classify_clause (primary_clause desc)

/-- get_play_str: scan the keyword table over the primary clause, force FI
on a Fan interference summary, and fall back to the disqualified check or
the no-keyword ValueError (whose message carries the raw description). -/
def get_play_str (summary desc : String) : Except String String :=
  if pyTruthy (play_code_opt summary desc) then
    Except.ok ((play_code_opt summary desc).getD "")
  else if disqualified (primary_clause desc) then Except.ok ""
  else Except.error ("No keyword found in plate description: " ++ desc)

/-- get_throws_str: split off the suffix clauses, trim deflection, assist
and label prefixes from the primary clause, then resolve the chain and the
parenthesised suffix chain. -/
def get_throws_str (desc : String) : Except String (String × String) :=
  let d := strip_suffixes desc
  let pair := if hasSubS ". " d then breakOnFirst ". " d else (d, "")
  let dm := pair.1
  let suffix := pair.2
  let dm := if hasSubS ", deflected" dm then breakBefore ", deflected" dm else dm
  let dm := if hasSubS ", assist" dm then breakBefore ", assist" dm else dm
  match (if hasSubS ": " dm then pyIndex (pySplit ": " dm) 1 else Except.ok dm) with
  | Except.error e => Except.error e
  | Except.ok dm2 =>
    match get_defense_code_order dm2 with
    | Except.error e => Except.error e
    | Except.ok order =>
      match get_defense_suffix suffix with
      | Except.error e => Except.error e
      | Except.ok ds => Except.ok (String.intercalate "-" order, ds)

/-- get_hit_location: the play code prepended to the first character of the
defensive chain, unless the chain is empty or the code is a no-hit code. -/
def get_hit_location (summary desc : String) : Except String (Option String) :=
  match get_play_str summary desc with
  | Except.error e => Except.error e
  | Except.ok play =>
    match get_throws_str desc with
    | Except.error e => Except.error e
    | Except.ok (throws, _) =>
      match throws.data with
      | [] => Except.ok none
      | c :: _ =>
        if play ∈ NO_HIT_CODE_LIST then Except.ok none
        else Except.ok (some (play ++ String.mk [c]))

/-- get_error_str: gated on the bare word error anywhere in the raw
description, then split at the spaced error-by separator (an IndexError
when only the bare word is present), then the position table (a KeyError
on an unknown fielder token); catcher interference yields E2. -/
def get_error_str (desc : String) : Except String (Option String) :=
  if hasSubS "error" desc then
    match pyIndex (pySplit " error by " desc) 1 with
    | Except.error e => Except.error e
    | Except.ok seg =>
      match pySplitWs seg with
      | [] => Except.error "IndexError: list index out of range"
      | tok :: _ =>
        match lookupD POSITION_CODE_DICT tok with
        | some n => Except.ok (some ("E" ++ toString n))
        | none => Except.error ("KeyError: " ++ tok)
  else if hasSubS "catcher interference" desc then Except.ok (some "E2")
  else Except.ok none

/-- get_on_base_and_summary: on-base summaries take the fixed notation plus
the suffix chain; everything else is play code, chain and suffix. -/
def get_on_base_and_summary (summary desc : String) : Except String (Bool × String) :=
  match get_throws_str desc with
  | Except.error e => Except.error e
  | Except.ok (throws, suffix) =>
    match lookupD ON_BASE_SUMMARY_DICT summary with
    | some code => Except.ok (true, code ++ suffix)
    | none =>
      match get_play_str summary desc with
      | Except.error e => Except.error e
      | Except.ok play => Except.ok (false, play ++ throws ++ suffix)

/-- PlateAppearance: inputs plus the derived fields computed at
construction time. -/
structure PlateAppearance where
  batting_team : Team
  plate_appearance_description : String
  plate_appearance_summary : String
  pitcher : Player
  batter : Player
  inning_outs : Nat
  scoring_runners_list : List Player
  runners_batted_in_list : List Player
  event_list : List String
  out_runners_list : List (Player × String)
  hit_location : Option String
  error_str : Option String
  got_on_base : Bool
  scorecard_summary : String
deriving DecidableEq

/-- PlateAppearance.__init__: the four derived computations in source
order; any raise aborts the whole construction. -/
def mkPlateAppearance (team : Team) (desc summary : String) (pitcher batter : Player)
    (inning_outs : Nat) (scoring : List Player) (rbis : List Player)
    (events : Option (List String)) : Except String PlateAppearance :=
  match get_out_runners_list team desc with
  | Except.error e => Except.error e
  | Except.ok outr =>
    match get_hit_location summary desc with
    | Except.error e => Except.error e
    | Except.ok hit =>
      match get_error_str desc with
      | Except.error e => Except.error e
      | Except.ok err =>
        match get_on_base_and_summary summary desc with
        | Except.error e => Except.error e
        | Except.ok (onb, summ) =>
          Except.ok
            { batting_team := team
              plate_appearance_description := desc
              plate_appearance_summary := summary
              pitcher := pitcher
              batter := batter
              inning_outs := inning_outs
              scoring_runners_list := scoring
              runners_batted_in_list := rbis
              event_list := events.getD []
              out_runners_list := outr
              hit_location := hit
              error_str := err
              got_on_base := onb
              scorecard_summary := summ }

/-! ## Fixture values used by the witness and counterexample theorems -/

/-- A roster-free team. -/
def blankTeam : Team :=
  { name := "Reds", abbreviation := "CIN",
    player_id_dict := [], player_name_dict := [], player_last_name_dict := [] }

/-- A placeholder pitcher and batter for constructor calls. -/
def dummyPlayer : Player :=
  { last_name := "Doe", first_name := "Jan", mlb_id := 1,
    obp := none, slg := none, number := none }

/-- Mike Trout, the roster entry of the doubled-off fixtures. -/
def trout : Player :=
  { last_name := "Trout", first_name := "Mike", mlb_id := 545361,
    obp := none, slg := none, number := none }

/-- A one-player team holding Mike Trout, built through Team.append. -/
def troutTeam : Team :=
  match blankTeam.append trout with
  | Except.ok t => t
  | Except.error _ => blankTeam

/-- John Smith, the round-trip fixture player. -/
def smithP : Player :=
  { last_name := "Smith", first_name := "John", mlb_id := 27,
    obp := none, slg := none, number := none }

/-- The team obtained by registering John Smith on an empty roster. -/
def smithT : Team :=
  { name := "Twins", abbreviation := "MIN",
    player_id_dict := [(27, smithP)],
    player_name_dict := [("John Smith", smithP)],
    player_last_name_dict := [("JSmith", smithP)] }

/-! ## General lemmas -/

/-- Rebuilding a string from its character list is the identity. -/
theorem string_mk_data (s : String) : String.mk s.data = s := by
  cases s
  rfl

/-- A keyword fold over entries none of which occurs in the clause keeps
its accumulator. -/
theorem foldl_classify_keep (clause : String) (l : List (String × String))
    (acc : Option String) (h : ∀ p ∈ l, hasSubS p.1 clause = false) :
    l.foldl (fun a kc => if hasSubS kc.1 clause then some kc.2 else a) acc = acc := by
  induction l generalizing acc with
  | nil => rfl
  | cons x xs ih =>
    have hx : hasSubS x.1 clause = false := h x (List.mem_cons_self _ _)
    simp only [List.foldl_cons, hx, Bool.false_eq_true, if_false]
    exact ih acc (fun p hp => h p (List.mem_cons_of_mem _ hp))

/-- Every character of a pattern standing at the head of a text occurs in
the text. -/
theorem leadsWith_mem (pat l : List Char) (h : leadsWith pat l = true) :
    ∀ c ∈ pat, c ∈ l := by
  induction pat generalizing l with
  | nil => intro c hc; cases hc
  | cons a as ih =>
    cases l with
    | nil => cases h
    | cons b bs =>
      simp only [leadsWith, Bool.and_eq_true, decide_eq_true_eq] at h
      intro c hc
      cases hc with
      | head => exact h.1 ▸ List.mem_cons_self _ _
      | tail _ hc => exact List.mem_cons_of_mem _ (ih bs h.2 c hc)

/-- Every character of a contained pattern occurs in the containing text. -/
theorem hasSub_mem (pat l : List Char) (h : hasSub pat l = true) :
    ∀ c ∈ pat, c ∈ l := by
  induction l with
  | nil =>
    simp only [hasSub, List.isEmpty_iff] at h
    subst h
    intro c hc; cases hc
  | cons b bs ih =>
    simp only [hasSub, Bool.or_eq_true] at h
    cases h with
    | inl h => exact leadsWith_mem _ _ h
    | inr h => exact fun c hc => List.mem_cons_of_mem _ (ih h c hc)

/-- Containment fails when some pattern character is absent from the text. -/
theorem hasSub_false_of_missing (pat l : List Char) (c : Char)
    (hc : c ∈ pat) (hl : c ∉ l) : hasSub pat l = false := by
  cases h : hasSub pat l with
  | false => rfl
  | true => exact absurd (hasSub_mem pat l h c hc) hl

/-- Replace-all is the identity when the pattern never occurs. -/
theorem replaceGo_id (pat rep : List Char) (f : Nat) (l : List Char)
    (h : hasSub pat l = false) : replaceGo pat rep f l = l := by
  induction f generalizing l with
  | zero => cases l <;> rfl
  | succ f ih =>
    cases l with
    | nil => rfl
    | cons c t =>
      simp only [hasSub, Bool.or_eq_false_iff] at h
      simp only [replaceGo, h.1, Bool.and_false, Bool.false_eq_true, if_false]
      exact congrArg (c :: ·) (ih t h.2)

/-- replaceAllL is the identity when the pattern never occurs. -/
theorem replaceAllL_id (pat rep l : List Char) (h : hasSub pat l = false) :
    replaceAllL pat rep l = l :=
  replaceGo_id pat rep l.length l h

/-- The search driver finds nothing when the matcher rejects every suffix
position of a text in a hereditary class. -/
theorem searchGo_none (f : List Char → Option Nat) (P : List Char → Prop)
    (hind : ∀ c t, P (c :: t) → P t) (hf : ∀ l, P l → f l = none) :
    ∀ l, P l → searchGo f l = none := by
  intro l
  induction l with
  | nil => intro hP; simp [searchGo, hf [] hP]
  | cons c t ih =>
    intro hP
    simp [searchGo, hf (c :: t) hP, ih (hind c t hP)]

/-- The suffix matcher rejects any text missing a pattern character. -/
theorem matchSufAt_none (pat l : List Char) (c : Char) (hc : c ∈ pat)
    (hl : c ∉ l) : matchSufAt pat l = none := by
  have hlw : leadsWith pat l = false := by
    cases h : leadsWith pat l with
    | false => rfl
    | true => exact absurd (leadsWith_mem pat l h c hc) hl
  simp [matchSufAt, hlw]

/-- The lone-initial matcher rejects any period-free text. -/
theorem matchInit1At_none (l : List Char) (h : '.' ∉ l) : matchInit1At l = none := by
  match l with
  | [] => rfl
  | [c] => rfl
  | c0 :: c1 :: rest =>
    have hc : c1 ≠ '.' := fun e => h (by simp [e])
    simp [matchInit1At, hc]

/-- The two-initial matcher rejects any period-free text. -/
theorem matchInit2At_none (l : List Char) (h : '.' ∉ l) : matchInit2At l = none := by
  match l with
  | [] => rfl
  | [c] => rfl
  | c0 :: c1 :: rest =>
    have hc : c1 ≠ '.' := fun e => h (by simp [e])
    simp [matchInit2At, hc]

/-- The suffix rewrite loop is the identity when the search fails. -/
theorem stripLoop_id (pat : List Char) (f : Nat) (l : List Char)
    (h : searchGo (matchSufAt pat) l = none) : stripLoop pat f l = l := by
  cases f with
  | zero => rfl
  | succ f => simp [stripLoop, h]

/-- The two-initial loop is the identity when the search fails. -/
theorem fixLoop2_id (f : Nat) (l : List Char)
    (h : searchGo matchInit2At l = none) : fixLoop2 f l = l := by
  cases f with
  | zero => rfl
  | succ f => simp [fixLoop2, h]

/-- The lone-initial loop is the identity when the search fails. -/
theorem fixLoop1_id (f : Nat) (l : List Char)
    (h : searchGo matchInit1At l = none) : fixLoop1 f l = l := by
  cases f with
  | zero => rfl
  | succ f => simp [fixLoop1, h]

/-- Not-membership is hereditary along list tails. -/
theorem not_mem_tail {c b : Char} {t : List Char} (h : c ∉ b :: t) : c ∉ t :=
  fun hm => h (List.mem_cons_of_mem _ hm)

/-- strip_this_suffix is the identity on trimmed text missing some pattern
character. -/
theorem strip_this_suffix_id (pat l : List Char) (c : Char) (hc : c ∈ pat)
    (hl : c ∉ l) (htrim : pyTrimL l = l) : strip_this_suffix pat l = l := by
  unfold strip_this_suffix
  rw [stripLoop_id pat _ l
        (searchGo_none (matchSufAt pat) (fun l => c ∉ l)
          (fun _ _ h => not_mem_tail h)
          (fun l hP => matchSufAt_none pat l c hc hP) l hl),
      replaceAllL_id pat [] l (hasSub_false_of_missing pat l c hc hl), htrim]

/-- strip_suffixes is the identity on trimmed text free of periods and of
the II and IV numerals. -/
theorem strip_suffixes_id (t : String)
    (hdot : '.' ∉ t.data)
    (hII : hasSub (" II").data t.data = false)
    (hIII : hasSub (" III").data t.data = false)
    (hIV : hasSub (" IV").data t.data = false)
    (htrim : pyTrimL t.data = t.data) :
    strip_suffixes t = t := by
  show String.mk
      (replaceAllL (" St. ").data (" St ").data
        (replaceAllL (" IV").data []
          (replaceAllL (" III").data []
            (replaceAllL (" II").data []
              (strip_this_suffix (" Sr.").data
                (strip_this_suffix (" Jr.").data t.data)))))) = t
  rw [strip_this_suffix_id (" Jr.").data t.data '.' (by decide) hdot htrim,
      strip_this_suffix_id (" Sr.").data t.data '.' (by decide) hdot htrim,
      replaceAllL_id _ _ _ hII, replaceAllL_id _ _ _ hIII, replaceAllL_id _ _ _ hIV,
      replaceAllL_id _ _ _ (hasSub_false_of_missing (" St. ").data t.data '.' (by decide) hdot),
      string_mk_data]

/-- fix_initials is the identity on period-free text. -/
theorem fix_initials_id (t : String) (hdot : '.' ∉ t.data) : fix_initials t = t := by
  show String.mk
      (fixLoop1 ((fixLoop2 (t.data.length + 1) t.data).length + 1)
        (fixLoop2 (t.data.length + 1) t.data)) = t
  rw [fixLoop2_id _ t.data
        (searchGo_none matchInit2At (fun l => '.' ∉ l)
          (fun _ _ h => not_mem_tail h) (fun l hP => matchInit2At_none l hP) t.data hdot),
      fixLoop1_id _ t.data
        (searchGo_none matchInit1At (fun l => '.' ∉ l)
          (fun _ _ h => not_mem_tail h) (fun l hP => matchInit1At_none l hP) t.data hdot),
      string_mk_data]

/-- The normalizer fixes any trimmed string free of periods and of the II
and IV numerals. -/
theorem normalize_name_fixed (t : String)
    (hdot : '.' ∉ t.data)
    (hII : hasSub (" II").data t.data = false)
    (hIII : hasSub (" III").data t.data = false)
    (hIV : hasSub (" IV").data t.data = false)
    (htrim : pyTrimL t.data = t.data) :
    normalize_name t = t := by
  unfold normalize_name
  rw [fix_initials_id t hdot, strip_suffixes_id t hdot hII hIII hIV htrim]

/-- Every code of the keyword table is a non-empty string. -/
theorem play_codes_nonempty : ∀ p ∈ PLAY_CODE_ORDERED_DICT, p.2 ≠ "" := by decide

/-- The keyword scan keeps the code of the last matching entry: splitting
the table at a matching entry that no later entry beats pins the result. -/
theorem classify_clause_last (clause kw c : String) (pre post : List (String × String))
    (htab : PLAY_CODE_ORDERED_DICT = pre ++ (kw, c) :: post)
    (hkw : hasSubS kw clause = true)
    (hpost : ∀ p ∈ post, hasSubS p.1 clause = false) :
    classify_clause clause = some c := by
  unfold classify_clause
  rw [htab, List.foldl_append, List.foldl_cons, hkw]
  simp only [if_true]
  exact foldl_classify_keep clause post (some c) hpost

/-- A clause matching no table keyword classifies to none. -/
theorem classify_clause_none (clause : String)
    (h : ∀ p ∈ PLAY_CODE_ORDERED_DICT, hasSubS p.1 clause = false) :
    classify_clause clause = none :=
  foldl_classify_keep clause PLAY_CODE_ORDERED_DICT none h

/-- get_play_str of a matched keyword: the scan result survives when the
summary is not the fan-interference override. -/
theorem get_play_str_of_classify (summary desc c : String)
    (hs : summary ≠ "Fan interference")
    (hc : classify_clause (primary_clause desc) = some c) (hne : c ≠ "") :
    get_play_str summary desc = Except.ok c := by
  have hp : play_code_opt summary desc = some c := by
    unfold play_code_opt
    rw [if_neg hs, hc]
  simp [get_play_str, hp, pyTruthy, hne]

/-- get_play_str raises the documented no-keyword ValueError whenever no
table keyword occurs, the summary is not Fan interference, and none of the
disqualifying patterns occurs. -/
theorem get_play_str_no_keyword (summary desc : String)
    (hs : summary ≠ "Fan interference")
    (hk : ∀ p ∈ PLAY_CODE_ORDERED_DICT, hasSubS p.1 (primary_clause desc) = false)
    (hd : disqualified (primary_clause desc) = false) :
    get_play_str summary desc =
      Except.error ("No keyword found in plate description: " ++ desc) := by
  have hp : play_code_opt summary desc = none := by
    unfold play_code_opt
    rw [if_neg hs, classify_clause_none (primary_clause desc) hk]
  simp [get_play_str, hp, pyTruthy, hd]

/-- process_defense_predicate_list raises the documented position-token
ValueError, naming the offending token, as soon as the scan reaches a
token outside both the position table and the base-name exceptions. -/
theorem process_defense_error (tok : String) (rest : List String)
    (h1 : lookupD POSITION_CODE_DICT tok = none)
    (h2 : pyStrip [' ', '.'] tok ∉ (["1st", "2nd", "3rd"] : List String)) :
    ∀ good : List String,
      (∀ x ∈ good, (lookupD POSITION_CODE_DICT x).isSome = true ∨
        pyStrip [' ', '.'] x ∈ (["1st", "2nd", "3rd"] : List String)) →
      process_defense_predicate_list (good ++ tok :: rest) =
        Except.error (tok ++ " not in position code dict") := by
  intro good
  induction good with
  | nil =>
    intro _
    simp [process_defense_predicate_list, h1, h2]
  | cons x xs ih =>
    intro h
    have hrec := ih (fun y hy => h y (List.mem_cons_of_mem _ hy))
    have hx := h x (List.mem_cons_self _ _)
    rw [List.cons_append]
    cases hl : lookupD POSITION_CODE_DICT x with
    | some code => simp [process_defense_predicate_list, hl, hrec]
    | none =>
      have hbase : pyStrip [' ', '.'] x ∈ (["1st", "2nd", "3rd"] : List String) := by
        cases hx with
        | inl hx => rw [hl] at hx; cases hx
        | inr hx => exact hx
      simp [process_defense_predicate_list, hl, hbase, hrec]

/-- A first out-runner match whose runner the batting team cannot resolve
turns the whole out-runner extraction into the not-found ValueError. -/
theorem out_runners_first_miss (t : Team) (d name base : String)
    (rest : List (String × String))
    (hd1 : hasSubS (name ++ " doubled off") d = false)
    (hd2 : hasSubS (name ++ " was doubled off") d = false)
    (hf : t.find_player (.strKey name) = Except.ok none) :
    out_runners_go t d ((name, base) :: rest) =
      Except.error (name ++ " not found in team") := by
  simp [out_runners_go, hd1, hd2, Team.getItem, hf, keyToStr]

/-! ## Claim C1 -/

/-- C1: the claim says a roster miss for a named out-runner is surfaced as
a per-field not-found indication and does not abort the appearance; on the
code it does abort. Amended: when the first out-runner match names a
runner the batting team cannot resolve (and the phrase is not doubled-off),
get_out_runners_list raises the name-not-found ValueError of
Team.__getitem__, and the whole PlateAppearance construction fails with
that same error. -/
theorem C1_roster_miss_aborts_translation (t : Team) (desc name base : String)
    (rest : List (String × String))
    (hm : out_runner_matches (strip_suffixes desc) = (name, base) :: rest)
    (hd1 : hasSubS (name ++ " doubled off") (strip_suffixes desc) = false)
    (hd2 : hasSubS (name ++ " was doubled off") (strip_suffixes desc) = false)
    (hf : t.find_player (.strKey name) = Except.ok none) :
    get_out_runners_list t desc = Except.error (name ++ " not found in team") ∧
    ∀ su : String, ∀ pi ba : Player, ∀ o : Nat, ∀ sc rb : List Player,
      ∀ ev : Option (List String),
      mkPlateAppearance t desc su pi ba o sc rb ev =
        Except.error (name ++ " not found in team") := by
  have h1 : get_out_runners_list t desc = Except.error (name ++ " not found in team") := by
    unfold get_out_runners_list
    rw [hm]
    exact out_runners_first_miss t _ name base rest hd1 hd2 hf
  exact ⟨h1, fun su pi ba o sc rb ev => by simp [mkPlateAppearance, h1]⟩

/-- C1 witness: the amended theorem applied to an empty roster and the
description of a runner thrown out at second. -/
theorem C1_roster_miss_witness :
    get_out_runners_list blankTeam "Hank Aaron out at 2nd." =
      Except.error "Hank Aaron not found in team" ∧
    mkPlateAppearance blankTeam "Hank Aaron out at 2nd." "Groundout"
        dummyPlayer dummyPlayer 0 [] [] none =
      Except.error "Hank Aaron not found in team" := by
  have h := C1_roster_miss_aborts_translation blankTeam "Hank Aaron out at 2nd."
    "Hank Aaron" "2nd" [] (by decide) (by decide) (by decide) (by decide)
  exact ⟨h.1, h.2 "Groundout" dummyPlayer dummyPlayer 0 [] [] none⟩

/-- C1 counterexample: the claim as stated is false, since the
construction does not succeed but raises out of the whole appearance when
the out-runner clause names a runner missing from the roster. -/
theorem C1_counterexample :
    mkPlateAppearance blankTeam "Flies out to left. Kirby Puckett out at 2nd." "Flyout"
        dummyPlayer dummyPlayer 0 [] [] none =
      Except.error "Kirby Puckett not found in team" := by decide

/-! ## Claim C2 -/

/-- C2: for the description singles-to-left with a summary label other
than Fan interference, the play code is the empty string and the defensive
chain is the single code 7, as the claim states; but the computed hit
location is the string 7 (empty play code prepended to the first chain
character), not none as the claim states, because the empty code is not in
the no-hit-code list and the chain is non-empty. -/
theorem C2_singles_to_left_amended (summary : String)
    (h : summary ≠ "Fan interference") :
    get_play_str summary "singles to left" = Except.ok "" ∧
    get_throws_str "singles to left" = Except.ok ("7", "") ∧
    get_hit_location summary "singles to left" = Except.ok (some "7") := by
  have hp : play_code_opt summary "singles to left" = none := by
    unfold play_code_opt
    rw [if_neg h]
    decide
  have h1 : get_play_str summary "singles to left" = Except.ok "" := by
    unfold get_play_str
    rw [hp]
    decide
  have h3 : get_hit_location summary "singles to left" = Except.ok (some "7") := by
    unfold get_hit_location
    rw [h1]
    decide
  exact ⟨h1, by decide, h3⟩

/-- C2 witness: the amended theorem at the summary label Single. -/
theorem C2_singles_to_left_witness :
    ("Single" : String) ≠ "Fan interference" ∧
    get_play_str "Single" "singles to left" = Except.ok "" ∧
    get_throws_str "singles to left" = Except.ok ("7", "") ∧
    get_hit_location "Single" "singles to left" = Except.ok (some "7") :=
  ⟨by decide, C2_singles_to_left_amended "Single" (by decide)⟩

/-- C2 counterexample: the hit location of singles-to-left is the string
7, not none as the claim states. -/
theorem C2_counterexample :
    get_hit_location "Single" "singles to left" = Except.ok (some "7") ∧
    get_hit_location "Single" "singles to left" ≠ Except.ok none := by decide

/-! ## Claim C3 -/

/-- C3: the Play Classifier applies last-match-wins over the ordered
keyword table: when the table splits at a matching entry that no later
entry beats, the scan returns that code; in particular the clause
hits-a-sacrifice-fly-to-center classifies as SF, not F. -/
theorem C3_last_match_wins :
    (∀ clause kw c : String, ∀ pre post : List (String × String),
      PLAY_CODE_ORDERED_DICT = pre ++ (kw, c) :: post →
      hasSubS kw clause = true →
      (∀ p ∈ post, hasSubS p.1 clause = false) →
      classify_clause clause = some c) ∧
    get_play_str "Flyout" "hits a sacrifice fly to center" = Except.ok "SF" :=
  ⟨fun clause kw c pre post htab hkw hpost =>
    classify_clause_last clause kw c pre post htab hkw hpost, by decide⟩

/-- C3 witness: the general component applied at the sacrifice-fly entry,
with the later flat keywords all absent from the clause. -/
theorem C3_last_match_wins_witness :
    classify_clause "hits a sacrifice fly to center" = some "SF" :=
  C3_last_match_wins.1 "hits a sacrifice fly to center" "sacrifice fly" "SF"
    [("picks off", "PO"), ("caught stealing", "CS"), ("wild pitch", "WP"),
     ("passed ball", "PB"), ("balk", "BLK"), ("steals", "S"),
     ("fan interference", "FI"), ("catcher interference", "CI"), ("error", "E"),
     ("ground", "G"), ("grand slam", "HR"), ("homers", "HR"), ("pop", "P"),
     ("line", "L"), ("fly", "F"), ("flies", "F")]
    [("hit by pitch", "HBP"), ("bunt", "B"), ("sacrifice bunt", "SB"),
     ("walks", "BB"), ("intentionally walks", "IBB"),
     ("called out on strikes", "ꓘ"), ("strikes out", "K"), ("choice", "FC")]
    (by decide) (by decide) (by decide)

/-! ## Claim C4 -/

/-- C4: the two documented fatal conditions do abort translation with
errors naming the offending token and description, and construction is
atomic (an Except value: either a full record or an error); but the claim
that translation fails EXACTLY under those two conditions is false (see
the counterexample), so this amended form keeps the two conditions as
sufficient rather than exhaustive. -/
theorem C4_fatal_conditions_amended :
    (∀ tok : String, ∀ rest good : List String,
      lookupD POSITION_CODE_DICT tok = none →
      pyStrip [' ', '.'] tok ∉ (["1st", "2nd", "3rd"] : List String) →
      (∀ x ∈ good, (lookupD POSITION_CODE_DICT x).isSome = true ∨
        pyStrip [' ', '.'] x ∈ (["1st", "2nd", "3rd"] : List String)) →
      process_defense_predicate_list (good ++ tok :: rest) =
        Except.error (tok ++ " not in position code dict")) ∧
    (∀ summary desc : String, summary ≠ "Fan interference" →
      (∀ p ∈ PLAY_CODE_ORDERED_DICT, hasSubS p.1 (primary_clause desc) = false) →
      disqualified (primary_clause desc) = false →
      get_play_str summary desc =
        Except.error ("No keyword found in plate description: " ++ desc)) ∧
    (∀ t : Team, ∀ d su : String, ∀ pi ba : Player, ∀ o : Nat,
      ∀ sc rb : List Player, ∀ ev : Option (List String),
      (∃ pa, mkPlateAppearance t d su pi ba o sc rb ev = Except.ok pa) ∨
      (∃ e, mkPlateAppearance t d su pi ba o sc rb ev = Except.error e)) := by
  refine ⟨fun tok rest good h1 h2 hg => process_defense_error tok rest h1 h2 good hg,
    fun summary desc hs hk hd => get_play_str_no_keyword summary desc hs hk hd,
    fun t d su pi ba o sc rb ev => ?_⟩
  cases h : mkPlateAppearance t d su pi ba o sc rb ev with
  | ok pa => exact Or.inl ⟨pa, rfl⟩
  | error e => exact Or.inr ⟨e, rfl⟩

/-- C4 witness: the amended theorem at an unknown position token after a
known one, at a keyword-free non-disqualified clause, and at a concrete
constructor call. -/
theorem C4_fatal_conditions_witness :
    process_defense_predicate_list ["shortstop", "rover"] =
      Except.error "rover not in position code dict" ∧
    get_play_str "Out" "mystery event" =
      Except.error "No keyword found in plate description: mystery event" ∧
    ((∃ pa, mkPlateAppearance blankTeam "walks" "Walk" dummyPlayer dummyPlayer 0 [] [] none =
        Except.ok pa) ∨
     (∃ e, mkPlateAppearance blankTeam "walks" "Walk" dummyPlayer dummyPlayer 0 [] [] none =
        Except.error e)) :=
  ⟨C4_fatal_conditions_amended.1 "rover" [] ["shortstop"] (by decide) (by decide) (by decide),
   C4_fatal_conditions_amended.2.1 "Out" "mystery event" (by decide) (by decide) (by decide),
   C4_fatal_conditions_amended.2.2 blankTeam "walks" "Walk" dummyPlayer dummyPlayer 0 [] [] none⟩

/-- C4 counterexample: a construction that fails although both documented
conditions are absent (the primary clause has the keyword flies and a
recognised fielder, yet the out-runner roster miss aborts translation), so
translation does not fail exactly under the two documented conditions. -/
theorem C4_counterexample :
    mkPlateAppearance blankTeam "Batter flies out to center. John Smith doubled off 1st."
        "Flyout" dummyPlayer dummyPlayer 0 [] [] none =
      Except.error "John Smith not found in team" ∧
    get_play_str "Flyout" "Batter flies out to center. John Smith doubled off 1st." =
      Except.ok "F" ∧
    get_defense_code_order (primary_clause "Batter flies out to center. John Smith doubled off 1st.") =
      Except.ok ["8"] := by decide

/-! ## Claim C5 -/

/-- C5: the claim (and the suffix-stripping intent shared with the
roster-side cleaning of Team.append) says the whole honorific III is
removed; strip_suffixes instead applies the II substitution first, which
consumes the first two I letters of a III suffix and leaves a stray I
glued to the name, while the II, IV and internal St-dot cases do behave as
documented and the roster-side cleaning of the same name does strip III
whole. -/
theorem C5_strip_suffixes_behaviour :
    strip_suffixes "John Smith III" = "John SmithI" ∧
    append_short_last "Smith III" = Except.ok "Smith" ∧
    strip_suffixes "John Smith II" = "John Smith" ∧
    strip_suffixes "John Smith IV" = "John Smith" ∧
    strip_suffixes "A St. B" = "A St B" := by decide

/-! ## Claim C6 -/

/-- C6: the claim describes the error code as E-plus-position when
error-by appears, E2 on catcher interference, and none otherwise; the code
actually gates on the bare word error, so the amended form is: when the
word error is absent, catcher interference gives E2 and anything else
gives none; when the word error is present, the spaced error-by split must
succeed and the named token must be a known position, and then the code is
E plus that position code (otherwise construction raises, as the
counterexample shows). -/
theorem C6_error_code_amended :
    (∀ d : String, hasSubS "error" d = false → hasSubS "catcher interference" d = true →
      get_error_str d = Except.ok (some "E2")) ∧
    (∀ d : String, hasSubS "error" d = false → hasSubS "catcher interference" d = false →
      get_error_str d = Except.ok none) ∧
    (∀ d seg tok : String, ∀ toks : List String, ∀ n : Nat,
      hasSubS "error" d = true →
      pyIndex (pySplit " error by " d) 1 = Except.ok seg →
      pySplitWs seg = tok :: toks →
      lookupD POSITION_CODE_DICT tok = some n →
      get_error_str d = Except.ok (some ("E" ++ toString n))) := by
  refine ⟨fun d h1 h2 => ?_, fun d h1 h2 => ?_, fun d seg tok toks n h1 h2 h3 h4 => ?_⟩
  · simp [get_error_str, h1, h2]
  · simp [get_error_str, h1, h2]
  · simp [get_error_str, h1, h2, h3, h4]

/-- C6 witness: the three amended components at a catcher-interference
description, a plain groundout, and an error-by clause naming the
shortstop. -/
theorem C6_error_code_witness :
    get_error_str "reaches on catcher interference by Smith" = Except.ok (some "E2") ∧
    get_error_str "grounds out sharply" = Except.ok none ∧
    get_error_str "reaches on error by shortstop Jones" = Except.ok (some "E6") :=
  ⟨C6_error_code_amended.1 "reaches on catcher interference by Smith" (by decide) (by decide),
   C6_error_code_amended.2.1 "grounds out sharply" (by decide) (by decide),
   C6_error_code_amended.2.2 "reaches on error by shortstop Jones" "shortstop Jones"
     "shortstop" ["Jones"] 6 (by decide) (by decide) (by decide) (by decide)⟩

/-- C6 counterexample: a description containing the word error but no
error-by clause is neither of the claim cases, so the claim requires the
error code none; the code instead raises an IndexError out of the split. -/
theorem C6_counterexample :
    hasSubS "error by" "fielding error" = false ∧
    hasSubS "catcher interference" "fielding error" = false ∧
    get_error_str "fielding error" = Except.error "IndexError: list index out of range" ∧
    get_error_str "fielding error" ≠ Except.ok none := by decide

/-! ## Claim C7 -/

/-- C7: registering a player on an empty team and then finding them
round-trips for all three key forms: the numeric id, the exact full name,
and any query string whose fuzzy normalisation reproduces the stored
initial-plus-short-last-name key (which is what an internal-suffix-free
name guarantees for its natural prose forms). -/
theorem C7_register_find_round_trip (nm ab : String) (p : Player) (T : Team)
    (happ : Team.append ⟨nm, ab, [], [], []⟩ p = Except.ok T) :
    T.find_player (.intKey p.mlb_id) = Except.ok (some p) ∧
    T.find_player (.strKey p.full_name) = Except.ok (some p) ∧
    (∀ q K : String, T.player_last_name_dict = [(K, p)] →
      find_query_key q = Except.ok K →
      T.find_player (.strKey q) = Except.ok (some p)) := by
  unfold Team.append at happ
  cases h1 : append_short_last p.last_name with
  | error e => rw [h1] at happ; cases happ
  | ok short =>
    rw [h1] at happ
    cases h2 : str_first_char p.first_name with
    | error e => rw [h2] at happ; cases happ
    | ok ini =>
      rw [h2] at happ
      have hT : { name := nm, abbreviation := ab,
                  player_id_dict := [(p.mlb_id, p)],
                  player_name_dict := [(p.full_name, p)],
                  player_last_name_dict := [(String.mk [ini] ++ short, p)] : Team} = T := by
        cases happ
        rfl
      subst hT
      refine ⟨by simp [Team.find_player, lookupD], by simp [Team.find_player, lookupD], ?_⟩
      intro q K hK hq
      have hpair : (String.mk [ini] ++ short, p) = (K, p) := by
        injection hK
      have hKeq : String.mk [ini] ++ short = K := congrArg Prod.fst hpair
      rw [← hKeq] at hq
      by_cases hq2 : p.full_name = q
      · simp [Team.find_player, lookupD, hq2]
      · simp [Team.find_player, lookupD, hq2, hq]

/-- C7 witness: the round trip for John Smith with id 27, the full name,
and the prose fuzzy query J-space-Smith. -/
theorem C7_register_find_witness :
    smithT.find_player (.intKey 27) = Except.ok (some smithP) ∧
    smithT.find_player (.strKey "John Smith") = Except.ok (some smithP) ∧
    smithT.find_player (.strKey "J Smith") = Except.ok (some smithP) := by
  have h := C7_register_find_round_trip "Twins" "MIN" smithP smithT (by decide)
  exact ⟨h.1, h.2.1, h.2.2 "J Smith" "JSmith" (by decide) (by decide)⟩

/-! ## Claim C8 -/

/-- C8: the claim says the normalizer is idempotent on every string; it is
not (see the counterexample, where deleting one II occurrence glues a new
II together), so the amended form: whenever the normalised string contains
no period, none of the space-II and space-IV patterns, and is already
trimmed, normalising again returns it unchanged. -/
theorem C8_normalize_idempotent_amended (s : String)
    (hdot : '.' ∉ (normalize_name s).data)
    (hII : hasSub (" II").data (normalize_name s).data = false)
    (hIII : hasSub (" III").data (normalize_name s).data = false)
    (hIV : hasSub (" IV").data (normalize_name s).data = false)
    (htrim : pyTrimL (normalize_name s).data = (normalize_name s).data) :
    normalize_name (normalize_name s) = normalize_name s :=
  normalize_name_fixed (normalize_name s) hdot hII hIII hIV htrim

/-- C8 witness: the amended idempotence at the already-collapsed name JD
Martinez. -/
theorem C8_normalize_idempotent_witness :
    normalize_name (normalize_name "JD Martinez") = normalize_name "JD Martinez" :=
  C8_normalize_idempotent_amended "JD Martinez" (by decide) (by decide) (by decide)
    (by decide) (by decide)

/-- C8 counterexample: normalising A-I-III removes the first II occurrence
and thereby creates a fresh II, so a second normalisation changes the
string again: the normalizer is not idempotent. -/
theorem C8_counterexample :
    normalize_name "A I III" = "A II" ∧
    normalize_name (normalize_name "A I III") = "A" ∧
    normalize_name (normalize_name "A I III") ≠ normalize_name "A I III" := by decide

/-! ## Claim C9 -/

/-- C9: the doubled-off advancement itself works as claimed when the base
token is one of the increment-table keys 1st, 2nd, 3rd (each advancing one
step); but on the claim instance doubled-off-second-base the captured base
word second is not an increment key (see the counterexample), and the
defensive suffix renders empty, not 4-6 in parentheses, because the
suffix-search pattern requires the base token to follow the phrase with no
intervening space, which prose never satisfies. -/
theorem C9_doubled_off_amended :
    get_out_runners_list troutTeam "Mike Trout doubled off 1st base, 3-6." =
      Except.ok [(trout, "2nd")] ∧
    get_out_runners_list troutTeam "Mike Trout doubled off 2nd base, 4-6." =
      Except.ok [(trout, "3rd")] ∧
    get_out_runners_list troutTeam "Mike Trout doubled off 3rd base, 5-6." =
      Except.ok [(trout, "home")] ∧
    get_defense_suffix "Mike Trout doubled off 2nd base, 4-6." = Except.ok "" := by decide

/-- C9 counterexample: on the claim instance the spelled-out base word
second raises a KeyError instead of resolving to 3rd, and the defensive
suffix renders empty instead of 4-6 in parentheses. -/
theorem C9_counterexample :
    get_out_runners_list troutTeam "Mike Trout doubled off second base, 4-6." =
      Except.error "KeyError: second" ∧
    get_defense_suffix "Mike Trout doubled off second base, 4-6." = Except.ok "" ∧
    get_defense_suffix "Mike Trout doubled off second base, 4-6." ≠
      Except.ok " (4-6)" := by decide

/-! ## Claim C10 -/

/-- C10: int keys always return the id-index lookup without raising, and a
key of any other type raises the ValueError naming the key, as claimed;
but a non-empty str key is not enough to avoid raising (see the
counterexample), so the amended guard is that the fuzzy-key normalisation
of the str key succeeds (non-empty with a non-whitespace token), in which
case the lookup returns without raising. -/
theorem C10_key_domain_amended :
    (∀ t : Team, ∀ i : Int,
      Team.find_player t (.intKey i) = Except.ok (lookupD t.player_id_dict i)) ∧
    (∀ t : Team, ∀ r : String,
      Team.find_player t (.otherKey r) =
        Except.error ("Player key: " ++ r ++ " must be either int or str")) ∧
    (∀ t : Team, ∀ s k : String, find_query_key s = Except.ok k →
      ∃ res, Team.find_player t (.strKey s) = Except.ok res) := by
  refine ⟨fun t i => rfl, fun t r => rfl, fun t s k hk => ?_⟩
  cases hl : lookupD t.player_name_dict s with
  | some p => exact ⟨some p, by simp [Team.find_player, hl]⟩
  | none => exact ⟨lookupD t.player_last_name_dict k, by simp [Team.find_player, hl, hk]⟩

/-- C10 witness: the three amended components at an int key on an empty
roster, a list-like key rendering, and the str key J-space-Smith. -/
theorem C10_key_domain_witness :
    blankTeam.find_player (.intKey 5) = Except.ok none ∧
    blankTeam.find_player (.otherKey "[1, 2]") =
      Except.error "Player key: [1, 2] must be either int or str" ∧
    (∃ res, blankTeam.find_player (.strKey "J Smith") = Except.ok res) :=
  ⟨C10_key_domain_amended.1 blankTeam 5,
   C10_key_domain_amended.2.1 blankTeam "[1, 2]",
   C10_key_domain_amended.2.2 blankTeam "J Smith" "JSmith" (by decide)⟩

/-- C10 counterexample: the non-empty str key consisting of a single
period raises an IndexError out of the fuzzy normalisation, refuting the
claim that non-empty str keys never raise. -/
theorem C10_counterexample :
    ("." : String) ≠ "" ∧
    blankTeam.find_player (.strKey ".") =
      Except.error "IndexError: string index out of range" := by decide

end Baseball
